/- Verification of the leptess wrapper: a shallow embedding of
   src/leptonica.rs and src/tesseract.rs.

   Conventions of the embedding:
   - A Rust function that can panic is modelled with `Outcome`: `Outcome.ok v`
     is a normal return and `Outcome.panic` is process termination by panic
     (assert failure, unwrap on Err/None, unreachable).
   - A raw foreign pointer that may be null is modelled as an `Option` of its
     pointee; `none` is the null pointer.
   - Machine integers i32 are modelled as `Int` (no arithmetic is performed on
     them except the explicit `as i32` truncation of a usize index, modelled by
     `i32OfUsize` for a 64-bit target).
   - Foreign calls whose outcome depends on the environment (file system, OCR
     engine) are parameters of the embedded function.
   - Byte strings (paths, language identifiers, text) are `List Nat`. -/

import Mathlib

set_option linter.unusedVariables false

/-- Result of running a piece of Rust code: either a normal return or a panic
(process termination). -/
inductive Outcome (α : Type) where
  | ok : α → Outcome α
  | panic : Outcome α
deriving DecidableEq

/-- The foreign leptonica `Box` struct (the pointee of a non-null `*mut Box`):
four i32 fields. -/
structure BoxT where
  x : Int
  y : Int
  w : Int
  h : Int
deriving DecidableEq

/-- Foreign `boxCreate(x, y, w, h)`: allocates a box holding the four values.
The source comment on `Box::new` treats a null return as virtually impossible,
and the wrapper performs no null check, so the model returns the pointee. -/
def boxCreate (x y w h : Int) : BoxT :=
  { x := x, y := y, w := w, h := h }

/-- The Rust wrapper `Box { raw: *mut leptonica_sys::Box }`, with `raw`
assumed non-null as the accessors dereference it unconditionally. -/
structure Box where
  raw : BoxT
deriving DecidableEq

/-- `Box::x`: reads `(*self.raw).x`. -/
def Box.x (b : Box) : Int := b.raw.x

/-- `Box::y`: reads `(*self.raw).y`. -/
def Box.y (b : Box) : Int := b.raw.y

/-- `Box::w`: reads `(*self.raw).w`. -/
def Box.w (b : Box) : Int := b.raw.w

/-- `Box::h`: reads `(*self.raw).h`. -/
def Box.h (b : Box) : Int := b.raw.h

/-- `Box::new(x, y, w, h)`: `assert!(w > 1 || h > 1)` then wrap the result of
`boxCreate`. The assert panics exactly when the condition is false. -/
def Box.new (x y w h : Int) : Outcome Box :=
  if w > 1 ∨ h > 1 then Outcome.ok { raw := boxCreate x y w h }
  else Outcome.panic

/-- The Rust wrapper `Boxes { raw: *mut leptonica_sys::Boxa }`. The pointer
may be null (`get_component_images` stores the foreign result unchecked), so
`raw` is an `Option`; the pointee is the stored sequence of boxes, whose
length is the foreign struct's count field `n` (an i32, hence at most
`2 ^ 31 - 1` in the real library). -/
structure Boxes where
  raw : Option (List BoxT)
deriving DecidableEq

/-- `Boxes::len`: reads `(*self.raw).n as usize`. Dereferencing a null `raw`
is undefined behavior in the source; the model returns 0 there and no theorem
depends on that branch. -/
def Boxes.len (b : Boxes) : Nat :=
  match b.raw with
  | some l => l.length
  | none => 0

/-- The value of `index as i32` for `index: usize` on a 64-bit target:
truncate to the low 32 bits and reinterpret them as a signed 32-bit integer. -/
def i32OfUsize (n : Nat) : Int :=
  if n % 2 ^ 32 < 2 ^ 31 then ((n % 2 ^ 32 : Nat) : Int)
  else ((n % 2 ^ 32 : Nat) : Int) - 2 ^ 32

/-- Foreign `boxaGetBox(boxa, index, L_CLONE)`: returns null when the boxa
pointer is null or the index is outside `[0, n)`; otherwise a reference-counted
clone of the stored box, sharing the slot's geometry values. -/
def boxaGetBox (boxa : Option (List BoxT)) (index : Int) : Option BoxT :=
  match boxa with
  | none => none
  | some l => if 0 ≤ index then l[index.toNat]? else none

/-- `Boxes::get(index)`: calls `boxaGetBox(self.raw, index as i32, L_CLONE)`
and panics (`"Found null box"`) on a null result, otherwise wraps it. -/
def Boxes.get (b : Boxes) (index : Nat) : Outcome Box :=
  match boxaGetBox b.raw (i32OfUsize index) with
  | none => Outcome.panic
  | some bx => Outcome.ok { raw := bx }

/-- The consuming iterator `BoxesIterator { boxa, index, count }` produced by
`impl IntoIterator for Boxes`; it owns the collection. -/
structure BoxesIterator where
  boxa : Boxes
  index : Nat
  count : Nat
deriving DecidableEq

/-- `Iterator::next` for `BoxesIterator`: returns `None` once `index` reaches
`count` (leaving the state untouched), otherwise yields `boxa.get(index)` and
increments `index`. A panic inside `get` propagates. -/
def BoxesIterator.next (it : BoxesIterator) : Outcome (Option Box × BoxesIterator) :=
  if it.count ≤ it.index then Outcome.ok (none, it)
  else
    match it.boxa.get it.index with
    | Outcome.ok re => Outcome.ok (some re, { it with index := it.index + 1 })
    | Outcome.panic => Outcome.panic

/-- `Boxes::into_iter`: captures `count = self.len()` at creation and starts
at `index = 0`. -/
def Boxes.into_iter (b : Boxes) : BoxesIterator :=
  { boxa := b, index := 0, count := b.len }

/-- The borrowing iterator `BoxaRefIterator { boxa: &Boxes, index, count }`
produced by `impl IntoIterator for &Boxes`; it only borrows the collection. -/
structure BoxaRefIterator where
  boxa : Boxes
  index : Nat
  count : Nat
deriving DecidableEq

/-- `Iterator::next` for `BoxaRefIterator`: same logic as the consuming
iterator, reading through the borrowed collection. -/
def BoxaRefIterator.next (it : BoxaRefIterator) : Outcome (Option Box × BoxaRefIterator) :=
  if it.count ≤ it.index then Outcome.ok (none, it)
  else
    match it.boxa.get it.index with
    | Outcome.ok re => Outcome.ok (some re, { it with index := it.index + 1 })
    | Outcome.panic => Outcome.panic

/-- `(&Boxes)::into_iter`: captures `count = self.len()` at creation and
starts at `index = 0`. -/
def Boxes.ref_into_iter (b : Boxes) : BoxaRefIterator :=
  { boxa := b, index := 0, count := b.len }

/-- Driving a consuming iterator with a `for` loop: pull `next` until it
returns `None` (or `fuel` pulls have happened), collecting the yielded boxes
in order and returning the final iterator state. -/
def boxesCollect : Nat → BoxesIterator → Outcome (List Box × BoxesIterator)
  | 0, it => Outcome.ok ([], it)
  | fuel + 1, it =>
    match it.next with
    | Outcome.ok (none, it2) => Outcome.ok ([], it2)
    | Outcome.ok (some b, it2) =>
      match boxesCollect fuel it2 with
      | Outcome.ok (bs, it3) => Outcome.ok (b :: bs, it3)
      | Outcome.panic => Outcome.panic
    | Outcome.panic => Outcome.panic

/-- Driving a borrowing iterator with a `for` loop, as `boxesCollect`. -/
def boxaRefCollect : Nat → BoxaRefIterator → Outcome (List Box × BoxaRefIterator)
  | 0, it => Outcome.ok ([], it)
  | fuel + 1, it =>
    match it.next with
    | Outcome.ok (none, it2) => Outcome.ok ([], it2)
    | Outcome.ok (some b, it2) =>
      match boxaRefCollect fuel it2 with
      | Outcome.ok (bs, it3) => Outcome.ok (b :: bs, it3)
      | Outcome.panic => Outcome.panic
    | Outcome.panic => Outcome.panic

/-- A decoded raster image: the pointee of a non-null `*mut Pix` (only the
dimension fields matter to the wrapper). -/
structure PixT where
  w : Nat
  h : Nat
deriving DecidableEq

/-- `CString::new(bytes)`: fails with a NulError exactly when the bytes
contain an interior nul; every call site below unwraps, turning that failure
into a panic. -/
def cstringNew (bytes : List Nat) : Option (List Nat) :=
  if 0 ∈ bytes then none else some bytes

/-- `Pix::from_path(path)`, parameterized by the foreign `pixRead` call
(`none` models a null return). The path bytes go through
`CString::new(..).unwrap()` (paths in the model are already valid UTF-8, so
the preceding `to_str().unwrap()` cannot fail); a null `pixRead` result maps
to `Err(())` and a non-null one to `Ok(Pix)`. -/
def Pix.from_path (pixRead : List Nat → Option PixT) (path : List Nat) :
    Outcome (Except Unit PixT) :=
  match cstringNew path with
  | none => Outcome.panic
  | some cpath =>
    match pixRead cpath with
    | none => Outcome.ok (Except.error ())
    | some pix => Outcome.ok (Except.ok pix)

/-- The 20 supported encodings of `FileFormat`. -/
inductive FileFormat where
  | Unknown
  | Bmp
  | JfifJpeg
  | Png
  | Tiff
  | TiffPackbits
  | TiffRle
  | TiffG3
  | TiffG4
  | TiffLzw
  | TiffZip
  | Pnm
  | Ps
  | Gif
  | Jp2
  | Webp
  | Lpdf
  | TiffJpeg
  | Default
  | Spix
deriving DecidableEq

/-- `FileFormat::to_int`: the numeric `IFF_*` identifiers from the imageio.h
revision the source links to; every value fits an i32, so the
`try_into().unwrap()` in the source cannot fail. -/
def FileFormat.to_int : FileFormat → Int
  | FileFormat.Unknown => 0
  | FileFormat.Bmp => 1
  | FileFormat.JfifJpeg => 2
  | FileFormat.Png => 3
  | FileFormat.Tiff => 4
  | FileFormat.TiffPackbits => 5
  | FileFormat.TiffRle => 6
  | FileFormat.TiffG3 => 7
  | FileFormat.TiffG4 => 8
  | FileFormat.TiffLzw => 9
  | FileFormat.TiffZip => 10
  | FileFormat.Pnm => 11
  | FileFormat.Ps => 12
  | FileFormat.Gif => 13
  | FileFormat.Jp2 => 14
  | FileFormat.Webp => 15
  | FileFormat.Lpdf => 16
  | FileFormat.TiffJpeg => 17
  | FileFormat.Default => 18
  | FileFormat.Spix => 19

/-- `Pix::write(path, format)`, parameterized by the foreign `pixWrite` call
and its returned status: `Ok(())` exactly on status 0, `Err(())` on any other
status. -/
def Pix.write (pixWrite : List Nat → PixT → Int → Int) (pix : PixT)
    (path : List Nat) (format : FileFormat) : Outcome (Except Unit Unit) :=
  match cstringNew path with
  | none => Outcome.panic
  | some cpath =>
    if pixWrite cpath pix format.to_int = 0 then Outcome.ok (Except.ok ())
    else Outcome.ok (Except.error ())

/-- The error type `TessInitError { code: i32 }` declared in
src/tesseract.rs. The source never constructs a value of it (claim C1). -/
structure TessInitError where
  code : Int
deriving DecidableEq

/-- `TessBaseApiUninitializedPointer::init`, parameterized by the status the
foreign `TessBaseAPIInit3` returns: 0 returns normally, -1 panics
("Failed to initialize"), and any other value hits `unreachable!()`, which is
also a panic. -/
def uninitializedPointerInit (status : Int) : Outcome Unit :=
  if status = 0 then Outcome.ok ()
  else if status = -1 then Outcome.panic
  else Outcome.panic

/-- The typestate wrapper `TessBaseApiUnitialized` (source spelling); the
session pointer it owns is tracked by the trace model below. -/
inductive TessBaseApiUnitialized where
  | mk
deriving DecidableEq

/-- The typestate wrapper `TessBaseApiInitialized`. -/
inductive TessBaseApiInitialized where
  | mk
deriving DecidableEq

/-- The typestate wrapper `TessBaseApiImageSet`. -/
inductive TessBaseApiImageSet where
  | mk
deriving DecidableEq

/-- `TessBaseApiUnitialized::create_tess_base_api_initialized`: rebuilds the
raw pointer inside an Initialized wrapper and `mem::forget`s self, so the
uninitialized drop glue never runs on this session. -/
def create_tess_base_api_initialized (s : TessBaseApiUnitialized) :
    TessBaseApiInitialized :=
  TessBaseApiInitialized.mk

/-- `TessBaseApiUnitialized::init()`: both foreign arguments are null; the
status check is the panicking pointer init. -/
def TessBaseApiUnitialized.init (s : TessBaseApiUnitialized) (status : Int) :
    Outcome TessBaseApiInitialized :=
  match uninitializedPointerInit status with
  | Outcome.ok _ => Outcome.ok (create_tess_base_api_initialized s)
  | Outcome.panic => Outcome.panic

/-- `TessBaseApiUnitialized::init_with_lang(language)`: the language goes
through `CString::new(..).unwrap()`, then the panicking pointer init. -/
def TessBaseApiUnitialized.init_with_lang (s : TessBaseApiUnitialized)
    (language : List Nat) (status : Int) : Outcome TessBaseApiInitialized :=
  match cstringNew language with
  | none => Outcome.panic
  | some _ =>
    match uninitializedPointerInit status with
    | Outcome.ok _ => Outcome.ok (create_tess_base_api_initialized s)
    | Outcome.panic => Outcome.panic

/-- `TessBaseApiUnitialized::init_with_datapath(datapath)`: calls the foreign
`TessBaseAPIInit3` directly and discards its status, then transitions
unconditionally. -/
def TessBaseApiUnitialized.init_with_datapath (s : TessBaseApiUnitialized)
    (datapath : List Nat) (status : Int) : Outcome TessBaseApiInitialized :=
  match cstringNew datapath with
  | none => Outcome.panic
  | some _ => Outcome.ok (create_tess_base_api_initialized s)

/-- `TessBaseApiUnitialized::init_with_datapath_and_lang(datapath, language)`:
both byte strings are converted, then the panicking pointer init runs. -/
def TessBaseApiUnitialized.init_with_datapath_and_lang
    (s : TessBaseApiUnitialized) (datapath language : List Nat) (status : Int) :
    Outcome TessBaseApiInitialized :=
  match cstringNew datapath with
  | none => Outcome.panic
  | some _ =>
    match cstringNew language with
    | none => Outcome.panic
    | some _ =>
      match uninitializedPointerInit status with
      | Outcome.ok _ => Outcome.ok (create_tess_base_api_initialized s)
      | Outcome.panic => Outcome.panic

/-- `TessBaseApiInitialized::set_image`: binds the image through the foreign
call (which has no failure signal), rebuilds the pointer inside an ImageSet
wrapper and `mem::forget`s self. -/
def TessBaseApiInitialized.set_image (s : TessBaseApiInitialized) :
    TessBaseApiImageSet :=
  TessBaseApiImageSet.mk

/-- Is the byte a UTF-8 continuation byte (0x80 to 0xBF)? -/
def contByte (b : Nat) : Bool :=
  decide (128 ≤ b ∧ b ≤ 191)

/-- Validity of a byte sequence as UTF-8, as checked by the `to_str` call in
`get_text` (no overlong forms, no surrogates, nothing above U+10FFFF). -/
def validUtf8 : List Nat → Bool
  | [] => true
  | b :: rest =>
    if b ≤ 127 then validUtf8 rest
    else if 194 ≤ b ∧ b ≤ 223 then
      match rest with
      | c1 :: rest1 => contByte c1 && validUtf8 rest1
      | [] => false
    else if b = 224 then
      match rest with
      | c1 :: c2 :: rest2 =>
        decide (160 ≤ c1 ∧ c1 ≤ 191) && contByte c2 && validUtf8 rest2
      | _ => false
    else if (225 ≤ b ∧ b ≤ 236) ∨ (238 ≤ b ∧ b ≤ 239) then
      match rest with
      | c1 :: c2 :: rest2 => contByte c1 && contByte c2 && validUtf8 rest2
      | _ => false
    else if b = 237 then
      match rest with
      | c1 :: c2 :: rest2 =>
        decide (128 ≤ c1 ∧ c1 ≤ 159) && contByte c2 && validUtf8 rest2
      | _ => false
    else if b = 240 then
      match rest with
      | c1 :: c2 :: c3 :: rest3 =>
        decide (144 ≤ c1 ∧ c1 ≤ 191) && contByte c2 && contByte c3 &&
          validUtf8 rest3
      | _ => false
    else if 241 ≤ b ∧ b ≤ 243 then
      match rest with
      | c1 :: c2 :: c3 :: rest3 =>
        contByte c1 && contByte c2 && contByte c3 && validUtf8 rest3
      | _ => false
    else if b = 244 then
      match rest with
      | c1 :: c2 :: c3 :: rest3 =>
        decide (128 ≤ c1 ∧ c1 ≤ 143) && contByte c2 && contByte c3 &&
          validUtf8 rest3
      | _ => false
    else false

/-- `TessBaseApiImageSet::get_text`, parameterized by the byte buffer behind
the pointer `TessBaseAPIGetUTF8Text` returns. `CStr::from_ptr` reads up to
the first nul; `to_str().unwrap()` panics when those bytes are not valid
UTF-8, otherwise the text is copied out and the foreign buffer deleted. -/
def TessBaseApiImageSet.get_text (mem : List Nat) : Outcome (List Nat) :=
  if validUtf8 (mem.takeWhile (fun b => b != 0)) then
    Outcome.ok (mem.takeWhile (fun b => b != 0))
  else Outcome.panic

/-- The granularity constant `TessPageIteratorLevel_RIL_BLOCK`. -/
def RIL_BLOCK : Nat := 0

/-- The granularity constant `TessPageIteratorLevel_RIL_PARA`. -/
def RIL_PARA : Nat := 1

/-- The granularity constant `TessPageIteratorLevel_RIL_TEXTLINE`. -/
def RIL_TEXTLINE : Nat := 2

/-- The granularity constant `TessPageIteratorLevel_RIL_WORD`. -/
def RIL_WORD : Nat := 3

/-- The granularity constant `TessPageIteratorLevel_RIL_SYMBOL`. -/
def RIL_SYMBOL : Nat := 4

/-- `TessBaseApiImageSet::get_component_images(level, text_only)`,
parameterized by the foreign `TessBaseAPIGetComponentImages` call (`none`
models a null Boxa pointer). The source stores the returned pointer into
`Boxes { raw: .. }` with no null check. -/
def get_component_images (f : Nat → Int → Option (List BoxT))
    (iterator_level : Nat) (text_only : Bool) : Outcome Boxes :=
  Outcome.ok { raw := f iterator_level (if text_only then 1 else 0) }

/-- `TessBaseApiImageSet::get_blocks`. -/
def get_blocks (f : Nat → Int → Option (List BoxT)) (text_only : Bool) :
    Outcome Boxes :=
  get_component_images f RIL_BLOCK text_only

/-- `TessBaseApiImageSet::get_paras`. -/
def get_paras (f : Nat → Int → Option (List BoxT)) (text_only : Bool) :
    Outcome Boxes :=
  get_component_images f RIL_PARA text_only

/-- `TessBaseApiImageSet::get_textlines`. -/
def get_textlines (f : Nat → Int → Option (List BoxT)) (text_only : Bool) :
    Outcome Boxes :=
  get_component_images f RIL_TEXTLINE text_only

/-- `TessBaseApiImageSet::get_words`. -/
def get_words (f : Nat → Int → Option (List BoxT)) (text_only : Bool) :
    Outcome Boxes :=
  get_component_images f RIL_WORD text_only

/-- `TessBaseApiImageSet::get_symbols`. -/
def get_symbols (f : Nat → Int → Option (List BoxT)) (text_only : Bool) :
    Outcome Boxes :=
  get_component_images f RIL_SYMBOL text_only

/-- The teardown-relevant foreign calls of the engine wrapper. -/
inductive TessEvent where
  | apiCreate
  | apiInit3
  | apiSetImage2
  | apiEnd
  | apiDelete
deriving DecidableEq

/-- `Drop for TessBaseApiUninitializedPointer`: only `TessBaseAPIDelete`. -/
def dropUninitializedPointer : List TessEvent :=
  [TessEvent.apiDelete]

/-- `Drop for TessBaseApiInitializedPointer`: `TessBaseAPIEnd` followed by
`TessBaseAPIDelete`. -/
def dropInitializedPointer : List TessEvent :=
  [TessEvent.apiEnd, TessEvent.apiDelete]

/-- The lifecycle states of one engine session. -/
inductive TessState where
  | uninitialized
  | initialized
  | imageSet
deriving DecidableEq

/-- The drop glue run by the wrapper alive in each state:
`TessBaseApiUnitialized` holds an uninitialized pointer, while
`TessBaseApiInitialized` and `TessBaseApiImageSet` hold an initialized one. -/
def TessState.dropEvents : TessState → List TessEvent
  | TessState.uninitialized => dropUninitializedPointer
  | TessState.initialized => dropInitializedPointer
  | TessState.imageSet => dropInitializedPointer

/-- Which of the four init entry points a lifecycle used (they differ only in
arguments, not in the emitted foreign calls). -/
inductive InitCall where
  | plain
  | withLang
  | withDatapath
  | withDatapathAndLang
deriving DecidableEq

/-- A legal lifecycle of one session under the typestate API: the session is
created, carried through zero, one, or two successful transitions, and the
last live wrapper is dropped at scope exit. -/
inductive Lifecycle where
  | dropUninitialized : Lifecycle
  | dropInitialized : InitCall → Lifecycle
  | dropImageSet : InitCall → Lifecycle
deriving DecidableEq

/-- The foreign calls made while the lifecycle's wrappers are alive: `new`
emits the create call and each transition emits its foreign call; because
`create_tess_base_api_initialized` and `set_image` `mem::forget` the consumed
predecessor, no transition emits a teardown call. -/
def Lifecycle.liveEvents : Lifecycle → List TessEvent
  | Lifecycle.dropUninitialized => [TessEvent.apiCreate]
  | Lifecycle.dropInitialized _ => [TessEvent.apiCreate, TessEvent.apiInit3]
  | Lifecycle.dropImageSet _ =>
      [TessEvent.apiCreate, TessEvent.apiInit3, TessEvent.apiSetImage2]

/-- The state whose wrapper is still alive at scope exit. -/
def Lifecycle.finalState : Lifecycle → TessState
  | Lifecycle.dropUninitialized => TessState.uninitialized
  | Lifecycle.dropInitialized _ => TessState.initialized
  | Lifecycle.dropImageSet _ => TessState.imageSet

/-- The complete foreign call trace of a lifecycle: the live calls followed
by the drop glue of the final wrapper. -/
def Lifecycle.trace (lc : Lifecycle) : List TessEvent :=
  lc.liveEvents ++ lc.finalState.dropEvents

/-- `i32OfUsize` is the identity below `2 ^ 31`. -/
theorem i32OfUsize_of_lt {n : Nat} (h : n < 2 ^ 31) : i32OfUsize n = (n : Int) := by
  have h32 : n % 2 ^ 32 = n := Nat.mod_eq_of_lt (by omega)
  simp only [i32OfUsize, h32, if_pos h]

/-- `i32OfUsize` is negative on the upper half of the 32-bit range. -/
theorem i32OfUsize_neg {n : Nat} (h : 2 ^ 31 ≤ n % 2 ^ 32) : i32OfUsize n < 0 := by
  have hlt : n % 2 ^ 32 < 2 ^ 32 := Nat.mod_lt _ (by norm_num)
  simp only [i32OfUsize, if_neg (by omega : ¬ n % 2 ^ 32 < 2 ^ 31)]
  omega

/-- In-bounds `Boxes::get` on a non-null collection whose length fits an i32
count returns the clone of the indexed slot. -/
theorem Boxes.get_lt {l : List BoxT} {i : Nat} (hi : i < l.length)
    (hl : l.length ≤ 2 ^ 31) :
    Boxes.get { raw := some l } i = Outcome.ok { raw := l[i] } := by
  have h31 : i < 2 ^ 31 := lt_of_lt_of_le hi hl
  have hcast : i32OfUsize i = (i : Int) := i32OfUsize_of_lt h31
  simp [Boxes.get, boxaGetBox, hcast, List.getElem?_eq_getElem hi]

/-- Claim C3 counterexample: the claim says `create` succeeds for every
rectangle with `w > 0` and `h > 0`, but at `(x, y, w, h) = (0, 0, 1, 1)` both
extents are positive and `Box::new` panics, because the source's assertion is
`w > 1 || h > 1`, not positivity. -/
theorem C3_counterexample :
    (0 : Int) < 1 ∧ (0 : Int) < 1 ∧ Box.new 0 0 1 1 = Outcome.panic := by
  decide

/-- Claim C3 (amended): `Box::new(x, y, w, h)` fails (panics) exactly when
`w ≤ 1` and `h ≤ 1`; it succeeds for every rectangle with `w > 1` or `h > 1`,
returning a box that stores the four arguments unchanged. -/
theorem C3_create_boundary (x y w h : Int) :
    (w ≤ 1 ∧ h ≤ 1 → Box.new x y w h = Outcome.panic) ∧
    (1 < w ∨ 1 < h →
      Box.new x y w h = Outcome.ok { raw := { x := x, y := y, w := w, h := h } }) := by
  constructor
  · intro hsmall
    have hcond : ¬ (w > 1 ∨ h > 1) := by omega
    simp [Box.new, hcond]
  · intro hbig
    have hcond : w > 1 ∨ h > 1 := by omega
    simp [Box.new, hcond, boxCreate]

/-- Claim C3 witness: the amended boundary at the concrete inputs
`(5, 6, 0, 0)` (fails) and `(5, 6, 3, 1)` (succeeds). -/
theorem C3_create_boundary_witness :
    Box.new 5 6 0 0 = Outcome.panic ∧
    Box.new 5 6 3 1 = Outcome.ok { raw := { x := 5, y := 6, w := 3, h := 1 } } :=
  ⟨(C3_create_boundary 5 6 0 0).1 (by decide), (C3_create_boundary 5 6 3 1).2 (by decide)⟩

/-- Both traversals, one step characterized: from state `(index = i, count = c)`
over a non-null collection with `c ≤ length ≤ 2 ^ 31` and fuel at least
`c - i`, the consuming traversal yields clones of slots `i, …, c - 1` in
ascending order and stops with `index = max i c`, the collection untouched. -/
theorem boxesCollect_spec (l : List BoxT) (hl : l.length ≤ 2 ^ 31) :
    ∀ fuel i c : Nat, c ≤ l.length → c - i ≤ fuel →
      boxesCollect fuel { boxa := { raw := some l }, index := i, count := c } =
        Outcome.ok (((l.drop i).take (c - i)).map (fun bx => { raw := bx }),
          { boxa := { raw := some l }, index := max i c, count := c }) := by
  intro fuel
  induction fuel with
  | zero =>
    intro i c hc hfuel
    have hci : c ≤ i := by omega
    simp [boxesCollect, Nat.sub_eq_zero_of_le hci, Nat.max_eq_left hci]
  | succ fuel ih =>
    intro i c hc hfuel
    by_cases hci : c ≤ i
    · simp [boxesCollect, BoxesIterator.next, if_pos hci,
        Nat.sub_eq_zero_of_le hci, Nat.max_eq_left hci]
    · push_neg at hci
      have hi : i < l.length := lt_of_lt_of_le hci hc
      have hget := Boxes.get_lt hi hl
      have ihx := ih (i + 1) c hc (by omega)
      have hdrop : l.drop i = l[i] :: l.drop (i + 1) := List.drop_eq_getElem_cons hi
      have htake : c - i = (c - (i + 1)) + 1 := by omega
      have hmax1 : max (i + 1) c = c := by omega
      have hmax0 : max i c = c := by omega
      simp only [boxesCollect, BoxesIterator.next, if_neg (by omega : ¬ c ≤ i), hget,
        ihx, hdrop, htake, List.take_succ_cons, List.map_cons, hmax1, hmax0]

/-- The borrowing traversal satisfies the same characterization as the
consuming one. -/
theorem boxaRefCollect_spec (l : List BoxT) (hl : l.length ≤ 2 ^ 31) :
    ∀ fuel i c : Nat, c ≤ l.length → c - i ≤ fuel →
      boxaRefCollect fuel { boxa := { raw := some l }, index := i, count := c } =
        Outcome.ok (((l.drop i).take (c - i)).map (fun bx => { raw := bx }),
          { boxa := { raw := some l }, index := max i c, count := c }) := by
  intro fuel
  induction fuel with
  | zero =>
    intro i c hc hfuel
    have hci : c ≤ i := by omega
    simp [boxaRefCollect, Nat.sub_eq_zero_of_le hci, Nat.max_eq_left hci]
  | succ fuel ih =>
    intro i c hc hfuel
    by_cases hci : c ≤ i
    · simp [boxaRefCollect, BoxaRefIterator.next, if_pos hci,
        Nat.sub_eq_zero_of_le hci, Nat.max_eq_left hci]
    · push_neg at hci
      have hi : i < l.length := lt_of_lt_of_le hci hc
      have hget := Boxes.get_lt hi hl
      have ihx := ih (i + 1) c hc (by omega)
      have hdrop : l.drop i = l[i] :: l.drop (i + 1) := List.drop_eq_getElem_cons hi
      have htake : c - i = (c - (i + 1)) + 1 := by omega
      have hmax1 : max (i + 1) c = c := by omega
      have hmax0 : max i c = c := by omega
      simp only [boxaRefCollect, BoxaRefIterator.next, if_neg (by omega : ¬ c ≤ i), hget,
        ihx, hdrop, htake, List.take_succ_cons, List.map_cons, hmax1, hmax0]

/-- Claim C5: a non-null collection of length `N` (count fits the foreign i32
counter), traversed consuming or borrowing with enough fuel, yields exactly
the `N` clones of slots `0, …, N - 1` in ascending index order; both modes
yield the same sequence of boxes, the final iterator still carries the
unmodified collection, and the number of items equals `len()`. -/
theorem C5_both_iteration_modes (l : List BoxT) (fuel : Nat)
    (hl : l.length ≤ 2 ^ 31) (hfuel : l.length ≤ fuel) :
    boxesCollect fuel (Boxes.into_iter { raw := some l }) =
      Outcome.ok (l.map (fun bx => { raw := bx }),
        { boxa := { raw := some l }, index := l.length, count := l.length }) ∧
    boxaRefCollect fuel (Boxes.ref_into_iter { raw := some l }) =
      Outcome.ok (l.map (fun bx => { raw := bx }),
        { boxa := { raw := some l }, index := l.length, count := l.length }) ∧
    (l.map (fun bx => ({ raw := bx } : Box))).length = Boxes.len { raw := some l } := by
  have h1 := boxesCollect_spec l hl fuel 0 l.length (le_refl _) (by omega)
  have h2 := boxaRefCollect_spec l hl fuel 0 l.length (le_refl _) (by omega)
  simp only [List.drop_zero, Nat.sub_zero, List.take_length, Nat.max_eq_right (Nat.zero_le _)] at h1 h2
  refine ⟨h1, h2, ?_⟩
  simp [Boxes.len]

/-- Claim C5 witness: both traversals of the concrete one-element collection
holding the box `(0, 0, 2, 2)`. -/
theorem C5_both_iteration_modes_witness :
    boxesCollect 2 (Boxes.into_iter { raw := some [boxCreate 0 0 2 2] }) =
      Outcome.ok ([{ raw := boxCreate 0 0 2 2 }],
        { boxa := { raw := some [boxCreate 0 0 2 2] }, index := 1, count := 1 }) ∧
    boxaRefCollect 2 (Boxes.ref_into_iter { raw := some [boxCreate 0 0 2 2] }) =
      Outcome.ok ([{ raw := boxCreate 0 0 2 2 }],
        { boxa := { raw := some [boxCreate 0 0 2 2] }, index := 1, count := 1 }) :=
  ⟨(C5_both_iteration_modes [boxCreate 0 0 2 2] 2 (by decide) (by decide)).1,
   (C5_both_iteration_modes [boxCreate 0 0 2 2] 2 (by decide) (by decide)).2.1⟩

/-- Claim C9 counterexample: a collection of length 1 and the index `2 ^ 32`,
which is outside `[0, len)`; the claim says `get` must terminate there, but
`index as i32` truncates `2 ^ 32` to 0 on a 64-bit target, so `get` returns a
usable clone of slot 0 instead. -/
theorem C9_counterexample :
    Boxes.len { raw := some [boxCreate 7 8 9 10] } = 1 ∧
    (1 : Nat) < 2 ^ 32 ∧
    Boxes.get { raw := some [boxCreate 7 8 9 10] } (2 ^ 32) =
      Outcome.ok { raw := boxCreate 7 8 9 10 } := by
  decide

/-- Claim C9 (amended): on a 64-bit target `Boxes::get(index)` truncates the
index to its low 32 bits, read as a signed i32. On a non-null collection whose
length fits the foreign i32 counter, `get` returns an independently owned
clone of slot `index % 2 ^ 32` when that slot exists and terminates (panics)
otherwise. So every in-bounds index returns its clone, every out-of-bounds
index below `2 ^ 32` terminates, but an out-of-bounds index `≥ 2 ^ 32` whose
truncation lands in `[0, len)` returns the aliased slot's clone. -/
theorem C9_get_truncates (l : List BoxT) (index : Nat) (hl : l.length ≤ 2 ^ 31) :
    Boxes.get { raw := some l } index =
      match l[index % 2 ^ 32]? with
      | some bx => Outcome.ok { raw := bx }
      | none => Outcome.panic := by
  by_cases hm : index % 2 ^ 32 < 2 ^ 31
  · have hcast : i32OfUsize index = ((index % 2 ^ 32 : Nat) : Int) := by
      simp only [i32OfUsize, if_pos hm]
    have hpos : (0 : Int) ≤ ((index % 2 ^ 32 : Nat) : Int) := Int.natCast_nonneg _
    have htn : ((index % 2 ^ 32 : Nat) : Int).toNat = index % 2 ^ 32 :=
      Int.toNat_natCast _
    simp only [Boxes.get, boxaGetBox, hcast, if_pos hpos, htn]
    cases l[index % 2 ^ 32]? <;> rfl
  · push_neg at hm
    have hneg : i32OfUsize index < 0 := i32OfUsize_neg hm
    have hnone : l[index % 2 ^ 32]? = none := List.getElem?_eq_none (by omega)
    simp only [Boxes.get, boxaGetBox,
      if_neg (by omega : ¬ (0 : Int) ≤ i32OfUsize index), hnone]

/-- Claim C9 witness: the amended characterization at the concrete collection
`[(1, 2, 3, 4)]`, once at the in-bounds index 0 and once at the out-of-bounds
index 1. -/
theorem C9_get_truncates_witness :
    Boxes.get { raw := some [boxCreate 1 2 3 4] } 0 =
      Outcome.ok { raw := boxCreate 1 2 3 4 } ∧
    Boxes.get { raw := some [boxCreate 1 2 3 4] } 1 = Outcome.panic := by
  have h0 := C9_get_truncates [boxCreate 1 2 3 4] 0 (by decide)
  have h1 := C9_get_truncates [boxCreate 1 2 3 4] 1 (by decide)
  rw [h0, h1]
  exact ⟨by decide, by decide⟩

/-- Claim C10: both iterators are fused. A single `next` on any exhausted
state (`index ≥ count`) returns `None` and leaves the state unchanged, and a
full traversal of a non-null collection of length `N` ends in the exhausted
state `index = count = N`, after which any number of further pulls yields no
items and never reads past the count captured at creation. -/
theorem C10_iterators_fused (l : List BoxT) (fuel extra : Nat)
    (hl : l.length ≤ 2 ^ 31) (hfuel : l.length ≤ fuel)
    (it : BoxesIterator) (rit : BoxaRefIterator)
    (hit : it.count ≤ it.index) (hrit : rit.count ≤ rit.index) :
    it.next = Outcome.ok (none, it) ∧
    rit.next = Outcome.ok (none, rit) ∧
    boxesCollect fuel (Boxes.into_iter { raw := some l }) =
      Outcome.ok (l.map (fun bx => { raw := bx }),
        { boxa := { raw := some l }, index := l.length, count := l.length }) ∧
    boxesCollect extra { boxa := { raw := some l }, index := l.length, count := l.length } =
      Outcome.ok ([],
        { boxa := { raw := some l }, index := l.length, count := l.length }) ∧
    boxaRefCollect extra { boxa := { raw := some l }, index := l.length, count := l.length } =
      Outcome.ok ([],
        { boxa := { raw := some l }, index := l.length, count := l.length }) := by
  refine ⟨?_, ?_, ?_, ?_, ?_⟩
  · simp [BoxesIterator.next, if_pos hit]
  · simp [BoxaRefIterator.next, if_pos hrit]
  · have h1 := boxesCollect_spec l hl fuel 0 l.length (le_refl _) (by omega)
    simpa using h1
  · have h2 := boxesCollect_spec l hl extra l.length l.length (le_refl _) (by omega)
    simpa using h2
  · have h3 := boxaRefCollect_spec l hl extra l.length l.length (le_refl _) (by omega)
    simpa using h3

/-- Claim C10 witness: the fused behavior at a concrete one-element collection,
an exhausted consuming iterator and an exhausted borrowing iterator. -/
theorem C10_iterators_fused_witness :
    ({ boxa := { raw := some [boxCreate 5 5 9 9] }, index := 1, count := 1 } :
        BoxesIterator).next =
      Outcome.ok (none, { boxa := { raw := some [boxCreate 5 5 9 9] }, index := 1, count := 1 }) ∧
    ({ boxa := { raw := some [boxCreate 5 5 9 9] }, index := 1, count := 1 } :
        BoxaRefIterator).next =
      Outcome.ok (none, { boxa := { raw := some [boxCreate 5 5 9 9] }, index := 1, count := 1 }) :=
  ⟨(C10_iterators_fused [boxCreate 5 5 9 9] 1 3 (by decide) (by decide)
      { boxa := { raw := some [boxCreate 5 5 9 9] }, index := 1, count := 1 }
      { boxa := { raw := some [boxCreate 5 5 9 9] }, index := 1, count := 1 }
      (by decide) (by decide)).1,
   (C10_iterators_fused [boxCreate 5 5 9 9] 1 3 (by decide) (by decide)
      { boxa := { raw := some [boxCreate 5 5 9 9] }, index := 1, count := 1 }
      { boxa := { raw := some [boxCreate 5 5 9 9] }, index := 1, count := 1 }
      (by decide) (by decide)).2.1⟩

/-- Claim C6: for every foreign decoder outcome and every nul-free path,
`Pix::from_path` returns a usable image exactly when the decode call returns
non-null, returns the recoverable `Err(())` exactly when it returns null (no
partial result), and never crashes. -/
theorem C6_from_path (pixRead : List Nat → Option PixT) (path : List Nat)
    (hpath : 0 ∉ path) :
    (∀ pix, Pix.from_path pixRead path = Outcome.ok (Except.ok pix) ↔
      pixRead path = some pix) ∧
    (Pix.from_path pixRead path = Outcome.ok (Except.error ()) ↔
      pixRead path = none) ∧
    Pix.from_path pixRead path ≠ Outcome.panic := by
  have hc : cstringNew path = some path := by simp [cstringNew, hpath]
  cases hr : pixRead path with
  | none => simp [Pix.from_path, hc, hr]
  | some pix => simp [Pix.from_path, hc, hr]

/-- Claim C6 witness: a decoder that signals a missing file on the concrete
path "miss" yields exactly `Err(())`. -/
theorem C6_from_path_witness :
    Pix.from_path (fun _ => none) [109, 105, 115, 115] =
      Outcome.ok (Except.error ()) :=
  ((C6_from_path (fun _ => none) [109, 105, 115, 115] (by decide)).2.1).mpr rfl

/-- Claim C7: for every image, nul-free path, format, and foreign encoder
status, `Pix::write` succeeds exactly when the encoder returns status 0 and
returns the recoverable `Err(())` exactly when it returns a nonzero status. -/
theorem C7_write_status (pixWrite : List Nat → PixT → Int → Int) (pix : PixT)
    (path : List Nat) (format : FileFormat) (hpath : 0 ∉ path) :
    (Pix.write pixWrite pix path format = Outcome.ok (Except.ok ()) ↔
      pixWrite path pix format.to_int = 0) ∧
    (Pix.write pixWrite pix path format = Outcome.ok (Except.error ()) ↔
      pixWrite path pix format.to_int ≠ 0) := by
  have hc : cstringNew path = some path := by simp [cstringNew, hpath]
  by_cases hw : pixWrite path pix format.to_int = 0 <;>
    simp [Pix.write, hc, hw]

/-- Claim C7 witness: a succeeding encoder (status 0) and a failing encoder
(status 1) on the concrete image 10 by 20, path "a", PNG format. -/
theorem C7_write_status_witness :
    Pix.write (fun _ _ _ => 0) { w := 10, h := 20 } [97] FileFormat.Png =
      Outcome.ok (Except.ok ()) ∧
    Pix.write (fun _ _ _ => 1) { w := 10, h := 20 } [97] FileFormat.Png =
      Outcome.ok (Except.error ()) :=
  ⟨(C7_write_status (fun _ _ _ => 0) { w := 10, h := 20 } [97] FileFormat.Png
      (by decide)).1.mpr rfl,
   (C7_write_status (fun _ _ _ => 1) { w := 10, h := 20 } [97] FileFormat.Png
      (by decide)).2.mpr (by decide)⟩

/-- Claim C1: the code evaluated at the failing input. When the foreign init
call reports status -1 (an invalid language identifier, say "eng" misspelled),
`init`, `init_with_lang`, and `init_with_datapath_and_lang` panic instead of
returning a recoverable `InitializationFailure(code)`, while
`init_with_datapath` discards the nonzero status entirely and still produces
an Initialized value. -/
theorem C1_init_failure_behavior :
    TessBaseApiUnitialized.init TessBaseApiUnitialized.mk (-1) =
      Outcome.panic ∧
    TessBaseApiUnitialized.init_with_lang TessBaseApiUnitialized.mk
      [122, 122, 122] (-1) = Outcome.panic ∧
    TessBaseApiUnitialized.init_with_datapath_and_lang TessBaseApiUnitialized.mk
      [47, 100] [122, 122, 122] (-1) = Outcome.panic ∧
    TessBaseApiUnitialized.init_with_datapath TessBaseApiUnitialized.mk
      [47, 100] (-1) = Outcome.ok TessBaseApiInitialized.mk := by
  decide

/-- Claim C2 counterexample: the buffer holds the byte 0xFF, which is not
valid UTF-8, and `get_text` panics on it (the `unwrap` of `to_str`), so it
does terminate the process on invalid bytes. -/
theorem C2_counterexample :
    TessBaseApiImageSet.get_text [72, 255, 0] = Outcome.panic := by
  decide

/-- Claim C2 (amended): `get_text` returns the recognized bytes (up to the
first nul) when they are valid UTF-8 and terminates with a panic when they
are not; the encoding failure is never surfaced as a recoverable error. -/
theorem C2_get_text_amended (mem : List Nat) :
    (validUtf8 (mem.takeWhile (fun b => b != 0)) = true →
      TessBaseApiImageSet.get_text mem =
        Outcome.ok (mem.takeWhile (fun b => b != 0))) ∧
    (validUtf8 (mem.takeWhile (fun b => b != 0)) = false →
      TessBaseApiImageSet.get_text mem = Outcome.panic) := by
  constructor <;> intro hv <;> simp [TessBaseApiImageSet.get_text, hv]

/-- Claim C2 witness: the amended behavior at the concrete buffers "HELLO"
followed by nul (valid) and [0xC3, 0x28] followed by nul (an invalid two-byte
form). -/
theorem C2_get_text_amended_witness :
    TessBaseApiImageSet.get_text [72, 69, 76, 76, 79, 0] =
      Outcome.ok [72, 69, 76, 76, 79] ∧
    TessBaseApiImageSet.get_text [195, 40, 0] = Outcome.panic :=
  ⟨(C2_get_text_amended [72, 69, 76, 76, 79, 0]).1 (by decide),
   (C2_get_text_amended [195, 40, 0]).2 (by decide)⟩

/-- Claim C4: across every legal lifecycle the foreign session is released
exactly once. The full trace contains exactly one delete call; the end call
occurs exactly once when the session left the Uninitialized state and never
otherwise; no teardown call happens while wrappers are alive (transitions
included, since each transition forgets its predecessor); and the drop glue
is delete alone for Uninitialized and end-then-delete for Initialized and
ImageBound. -/
theorem C4_teardown_exactly_once (lc : Lifecycle) :
    lc.trace.count TessEvent.apiDelete = 1 ∧
    lc.trace.count TessEvent.apiEnd =
      (match lc.finalState with
       | TessState.uninitialized => 0
       | TessState.initialized => 1
       | TessState.imageSet => 1) ∧
    lc.liveEvents.count TessEvent.apiDelete = 0 ∧
    lc.liveEvents.count TessEvent.apiEnd = 0 ∧
    TessState.dropEvents TessState.uninitialized = [TessEvent.apiDelete] ∧
    TessState.dropEvents TessState.initialized =
      [TessEvent.apiEnd, TessEvent.apiDelete] ∧
    TessState.dropEvents TessState.imageSet =
      [TessEvent.apiEnd, TessEvent.apiDelete] := by
  cases lc with
  | dropUninitialized => decide
  | dropInitialized c => cases c <;> decide
  | dropImageSet c => cases c <;> decide

/-- Claim C8 counterexample: the foreign region-extraction call returns null
(no components found) at block granularity, and `get_blocks` returns normally,
wrapping the null pointer into the collection, instead of terminating. -/
theorem C8_counterexample :
    get_blocks (fun _ _ => none) false = Outcome.ok { raw := none } := by
  decide

/-- Claim C8 (amended): no granularity accessor checks the foreign result at
all: each returns normally, storing exactly the returned pointer (null
included) as the collection's raw pointer; nothing terminates at this point,
and later use of a null collection is the caller's problem. -/
theorem C8_regions_wrap_unchecked (f : Nat → Int → Option (List BoxT))
    (text_only : Bool) :
    get_blocks f text_only =
      Outcome.ok { raw := f RIL_BLOCK (if text_only then 1 else 0) } ∧
    get_paras f text_only =
      Outcome.ok { raw := f RIL_PARA (if text_only then 1 else 0) } ∧
    get_textlines f text_only =
      Outcome.ok { raw := f RIL_TEXTLINE (if text_only then 1 else 0) } ∧
    get_words f text_only =
      Outcome.ok { raw := f RIL_WORD (if text_only then 1 else 0) } ∧
    get_symbols f text_only =
      Outcome.ok { raw := f RIL_SYMBOL (if text_only then 1 else 0) } :=
  ⟨rfl, rfl, rfl, rfl, rfl⟩
